import Mathlib

/-!
# Verification of the Axiom memory-gated decision engine

Shallow embedding, in Lean 4, of the core of the repository
`Axiom-Signal---Personalized-Tech-Sensemaking`:

* `backend/memory/policy.py` — the memory write policy engine
  (`MemoryPolicyEngine` and its three gate functions);
* `backend/memory/redis_vector.py` — the vector memory store
  (`detect_contract_violation`, `decision_sig`, `_store_decision`,
  `_store_or_reinforce_user_trait`, `_store_or_reinforce_topic_pattern`,
  `process_verdict`, `get_memory_context`, `_normalize_topic`);
* `backend/graph/graph_utils.py` — the verdict stage
  (`evidence_strength_from_market`, `calculate_alignment`, `check_contract`,
  `resolve_decision_trajectory`, `validate_and_fix_verdict_result`,
  `verdict_node`).

Python strings are modelled as Lean `String`s (lists of characters), Python
floats as rationals `ℚ` (all constants involved are decimal literals compared
at discrete points, so `ℚ` is exact), Redis hashes as association lists from
key strings to typed records.  External effects (the sentence-transformer
embedder, the LLM call, the Redis memory-usage probe) are passed in as
explicit oracle parameters.
-/

set_option autoImplicit false

/-! ## Python string primitives, modelled on `List Char` -/

/-- `leadsWith needle hay`: `hay` starts with `needle` (helper for Python's
substring operator `in`). -/
def leadsWith : List Char → List Char → Bool
  | [], _ => true
  | _ :: _, [] => false
  | a :: as, b :: bs => a == b && leadsWith as bs

/-- `listHasSub needle hay`: `needle` occurs contiguously inside `hay`. -/
def listHasSub (needle : List Char) : List Char → Bool
  | [] => needle.isEmpty
  | c :: rest => leadsWith needle (c :: rest) || listHasSub needle rest

/-- Python's `needle in hay` on strings. -/
def strIn (needle hay : String) : Bool := listHasSub needle.data hay.data

/-- Python's `str.lower()` (ASCII case mapping, as used on the ASCII
keyword/status strings of this code base). -/
def pyLower (s : String) : String := ⟨s.data.map Char.toLower⟩

/-- Characters Python's `str.strip()` / `str.split()` treat as whitespace. -/
def wsp (c : Char) : Bool := c.isWhitespace

/-- Python's `str.strip()` on the character list. -/
def stripChars (l : List Char) : List Char :=
  ((l.dropWhile wsp).reverse.dropWhile wsp).reverse

/-- Python's `str.strip()`. -/
def pyStrip (s : String) : String := ⟨stripChars s.data⟩

/-- Worker for Python's `str.split()` (split on whitespace runs, no empty
pieces); `acc` holds the current word reversed. -/
def splitWordsAux : List Char → List Char → List (List Char)
  | [], acc => if acc.isEmpty then [] else [acc.reverse]
  | c :: cs, acc =>
    if wsp c then
      if acc.isEmpty then splitWordsAux cs [] else acc.reverse :: splitWordsAux cs []
    else splitWordsAux cs (c :: acc)

/-- Python's `str.split()` at the character-list level. -/
def pySplitList (l : List Char) : List (List Char) := splitWordsAux l []

/-- Python's `str.split()`. -/
def pySplit (s : String) : List String := (pySplitList s.data).map List.asString

/-- `" ".join` at the character-list level. -/
def interSpace : List (List Char) → List Char
  | [] => []
  | [w] => w
  | w :: ws => w ++ ' ' :: interSpace ws

/-- Python's `" ".join(pieces)`. -/
def pyJoinSpace (pieces : List String) : String :=
  ⟨interSpace (pieces.map String.data)⟩

/-! ## `backend/memory/schemas.py` — `MemoryWriteContext` -/

/-- `MemoryWriteContext` (schemas.py): the ephemeral value object handed to the
policy engine and the store after a completed decision. -/
structure MemoryWriteContext where
  user_id : String
  topic : String
  verdict : String
  confidence : String
  reasoning : String
  user_context : String
  market_signal : String
  hype_score : Int
  risk_factors : List String
  signal_status : String
  contract_violation : Bool := false
deriving Repr, DecidableEq

/-! ## `backend/memory/policy.py` — `MemoryPolicyEngine` -/

/-- `PolicyResult` (policy.py): possible outcomes of policy checks. -/
inductive PolicyResult where
  | approved
  | contract_violation
  | insufficient_signal
  | low_confidence
  | high_hype
  | weak_market
  | no_stable_trait
  | insufficient_evidence
deriving Repr, DecidableEq

/-- `MemoryPolicyEngine.MIN_CONFIDENCE` = 0.6. -/
def MIN_CONFIDENCE : ℚ := 6/10

/-- `MemoryPolicyEngine.MAX_HYPE` = 8. -/
def MAX_HYPE : Int := 8

/-- `MemoryPolicyEngine.CONFIDENCE_MAP` = {"low": 0.3, "medium": 0.6, "high": 0.9}
as a partial lookup (Python dict `.get`). -/
def CONFIDENCE_MAP : String → Option ℚ
  | "low" => some (3/10)
  | "medium" => some (6/10)
  | "high" => some (9/10)
  | _ => none

/-- `MemoryPolicyEngine.confidence_to_float`: `CONFIDENCE_MAP.get(s, 0.3)`. -/
def confidence_to_float (s : String) : ℚ := (CONFIDENCE_MAP s).getD (3/10)

/-- `MemoryPolicyEngine._check_universal_gates`: gates applied to all three
memory kinds — contract violation, insufficient signal, confidence < 0.6. -/
def _check_universal_gates (ctx : MemoryWriteContext) : Bool × PolicyResult :=
  if ctx.contract_violation then (false, .contract_violation)
  else if ctx.signal_status = "insufficient_signal" then (false, .insufficient_signal)
  else if confidence_to_float ctx.confidence < MIN_CONFIDENCE then (false, .low_confidence)
  else (true, .approved)

/-- Performance-focus keywords of `should_write_user_memory`. -/
def perf_words : List String :=
  ["performance", "speed", "latency", "fast", "optimize", "throughput"]

/-- Stability-focus keywords of `should_write_user_memory`. -/
def stable_words : List String :=
  ["stable", "reliable", "production", "enterprise", "mature", "battle-tested"]

/-- Learning-focus keywords of `should_write_user_memory`. -/
def learn_words : List String :=
  ["learn", "education", "tutorial", "beginner", "fundamental"]

/-- `MemoryPolicyEngine.should_write_user_memory`. -/
def should_write_user_memory (ctx : MemoryWriteContext) : Bool × PolicyResult :=
  let u := _check_universal_gates ctx
  if !u.1 then (false, u.2)
  else
    let reasoning_lower := pyLower ctx.reasoning
    let user_context_lower := pyLower ctx.user_context
    let perf_trait := perf_words.any (fun w => strIn w reasoning_lower) &&
      ["backend", "devops", "sre"].any (fun role => strIn role user_context_lower)
    let stable_trait := stable_words.any (fun w => strIn w reasoning_lower)
    let learn_trait := learn_words.any (fun w => strIn w reasoning_lower) &&
      ["junior", "student", "new"].any (fun level => strIn level user_context_lower)
    let trait_detected := perf_trait || stable_trait || learn_trait
    if !trait_detected then (false, .no_stable_trait)
    else (true, .approved)

/-- Durable-pattern phrases of `should_write_topic_memory`. -/
def valid_patterns : List String :=
  ["steep learning curve", "production adoption", "documentation quality",
   "community support", "ecosystem maturity"]

/-- `MemoryPolicyEngine.should_write_topic_memory`. -/
def should_write_topic_memory (ctx : MemoryWriteContext) : Bool × PolicyResult :=
  let u := _check_universal_gates ctx
  if !u.1 then (false, u.2)
  else if ctx.market_signal = "weak" then (false, .weak_market)
  else if ctx.hype_score > MAX_HYPE then (false, .high_hype)
  else
    let risk_text := pyLower (pyJoinSpace ctx.risk_factors)
    let pattern_detected := valid_patterns.any (fun p => strIn p risk_text) ||
      (ctx.market_signal == "strong" && ctx.hype_score < 5)
    if !pattern_detected then (false, .insufficient_evidence)
    else (true, .approved)

/-- `MemoryPolicyEngine.should_write_decision_memory`. -/
def should_write_decision_memory (ctx : MemoryWriteContext) : Bool × PolicyResult :=
  let u := _check_universal_gates ctx
  if !u.1 then (false, u.2)
  else if ctx.verdict = "ignore" then
    if confidence_to_float ctx.confidence ≥ 85/100 ∧ ctx.market_signal = "weak" then
      (true, .approved)
    else (false, .low_confidence)
  else (true, .approved)

/-! ## `backend/memory/redis_vector.py` — contract-violation detector -/

/-- Phrases of `detect_contract_violation` indicating lack of evidence. -/
def no_evidence_patterns : List String :=
  ["no direct evidence", "no evidence", "insufficient evidence",
   "lack of evidence", "no clear evidence", "evidence is lacking"]

/-- `RedisVectorMemory.detect_contract_violation`.  `confidence` is a string
here, as in the function's signature (`confidence: str`); the dead
`isinstance(confidence, (int, float))` branch is therefore not modelled.
`signal_status` and `confidence` are lowered and stripped before the checks;
`market_signal`, `verdict` and `reasoning` are compared as given. -/
def detect_contract_violation (signal_status market_signal verdict : String)
    (hype_score : Int) (reasoning confidence : String) : Bool :=
  if signal_status = "" ∨ confidence = "" then false
  else
    let signal_status := pyStrip (pyLower signal_status)
    let confidence := pyStrip (pyLower confidence)
    let conf_score : ℚ :=
      if strIn "high" confidence then 9/10
      else if strIn "medium" confidence then 7/10
      else if strIn "low" confidence then 4/10
      else 5/10
    if conf_score < 3/10 then false
    else if signal_status = "insufficient_signal" ∧ confidence = "high" then true
    else if market_signal = "weak" ∧ hype_score ≥ 9 ∧ verdict = "pursue" then true
    else if no_evidence_patterns.any (fun p => strIn p reasoning) ∧ confidence = "high" then true
    else if market_signal = "weak" ∧ confidence = "high" ∧ verdict = "pursue" then true
    else if hype_score = 10 ∧ market_signal = "weak" then true
    else false

/-! ## `backend/memory/redis_vector.py` — the store

Redis hashes are modelled as association lists from key strings to typed
records; `HSET key mapping` with a full field mapping is key insertion /
whole-record replacement, `HGETALL` is lookup.  TTLs (`EXPIRE`/`SETEX`
lifetimes) are not modelled: every theorem about repeat operations is read
as happening inside the relevant TTL window, during which the keys are live.
-/

/-- `HGETALL` on an association list. -/
def alGet {α : Type} (k : String) : List (String × α) → Option α
  | [] => none
  | (k', v) :: rest => if k' = k then some v else alGet k rest

/-- `HSET` with a full mapping: replace the record at `k`, or append it. -/
def alSet {α : Type} (k : String) (v : α) : List (String × α) → List (String × α)
  | [] => [(k, v)]
  | (k', v') :: rest => if k' = k then (k, v) :: rest else (k', v') :: alSet k v rest

/-- A stored user-trait hash (`axiom:user_trait:{user_id}:{trait_type}`).
The embedding bytes are not modelled (they are never read back by the code
under verification). -/
structure TraitRecord where
  user_id : String
  trait_type : String
  fact : String
  confidence : ℚ
  created_at : Nat
  updated_at : Nat
  context_tags : List String
  usage_count : Nat
deriving Repr, DecidableEq

/-- A stored topic-pattern hash (`axiom:topic_pattern:{topic}:{kind}`). -/
structure PatternRecord where
  topic : String
  pattern : String
  description : String
  confidence : ℚ
  evidence_count : Nat
  created_at : Nat
  updated_at : Nat
  market_signal : String
  hype_score : Int
deriving Repr, DecidableEq

/-- A stored decision hash (`axiom:decision:{user_id}:{topic_hash}`). -/
structure DecisionRecord where
  user_id : String
  topic : String
  verdict : String
  reasoning : String
  confidence : ℚ
  created_at : Nat
  ttl_days : Nat
  categories : List String
  market_signal : String
  hype_score : Int
deriving Repr, DecidableEq

/-- The Redis keyspace used by `RedisVectorMemory`: the three record families
plus the decision-signature index (`axiom:decision_sig:{sig}` → record id). -/
structure Store where
  traits : List (String × TraitRecord) := []
  patterns : List (String × PatternRecord) := []
  decisions : List (String × DecisionRecord) := []
  sigs : List (String × String) := []
deriving Repr, DecidableEq

/-- `RedisVectorMemory.decision_sig`: `sha256(f"{topic}|{reasoning}").hexdigest()[:16]`.
The truncated hex digest is modelled as the identity encoding of its input —
a deterministic function of `(topic, reasoning)`, which is the property the
code relies on; digest collisions are not modelled. -/
def decision_sig (topic reasoning : String) : String :=
  topic ++ "|" ++ reasoning

/-- `hashlib.md5(topic.encode()).hexdigest()[:12]` used inside the decision
record id, modelled like `decision_sig` as the identity encoding of `topic`. -/
def topic_hash (topic : String) : String := topic

/-- `_normalize_topic` (redis_vector.py): lowercase, drop digits and dots
(`re.sub(r"[\d\.]+", "")`), drop the remaining non-word non-space characters
(`re.sub(r"[^\w\s]", "")`), then `" ".join(normalized.split()).strip()`.
The regex classes `\d`/`\w`/`\s` are modelled by the ASCII character
predicates. -/
def isWordChar (c : Char) : Bool := c.isAlphanum || c == '_'

/-- Character-list core of `_normalize_topic`. -/
def normalizeTopicChars (l : List Char) : List Char :=
  let lowered := l.map Char.toLower
  let noDigits := lowered.filter (fun c => !(c.isDigit || c == '.'))
  let cleaned := noDigits.filter (fun c => isWordChar c || wsp c)
  interSpace (pySplitList cleaned)

/-- `RedisVectorMemory._normalize_topic`. -/
def _normalize_topic (topic : String) : String :=
  pyStrip ⟨normalizeTopicChars topic.data⟩

/-- A trait produced by `_extract_user_traits` (similarity-scored against the
sentence-transformer embeddings; the extraction itself is an external oracle,
see `process_verdict`). -/
structure ExtractedTrait where
  trait_type : String
  description : String
  confidence : ℚ
  context_tags : List String
deriving Repr, DecidableEq

/-- `RedisVectorMemory._store_or_reinforce_user_trait`.  Reinforcement updates
confidence to the count-weighted running average and bumps `usage_count`;
a fresh trait is stored with `usage_count = 1`.  Returns the updated store and
the record id (the `except` branches guard byte-decoding errors, which cannot
occur on typed records). -/
def _store_or_reinforce_user_trait (now : Nat) (store : Store)
    (user_id : String) (trait : ExtractedTrait) : Store × Option String :=
  let trait_id := "axiom:user_trait:" ++ user_id ++ ":" ++ trait.trait_type
  match alGet trait_id store.traits with
  | some existing =>
    let current_conf := existing.confidence
    let usage_count := existing.usage_count
    let new_conf := (current_conf * usage_count + trait.confidence) / (usage_count + 1)
    let updated := { existing with
      confidence := new_conf
      usage_count := usage_count + 1
      updated_at := now }
    ({ store with traits := alSet trait_id updated store.traits }, some trait_id)
  | none =>
    let fresh : TraitRecord := {
      user_id := user_id
      trait_type := trait.trait_type
      fact := trait.description
      confidence := trait.confidence
      created_at := now
      updated_at := now
      context_tags := trait.context_tags
      usage_count := 1 }
    ({ store with traits := alSet trait_id fresh store.traits }, some trait_id)

/-- A pattern produced by `_extract_topic_pattern`. -/
structure ExtractedPattern where
  pattern_type : String
  description : String
  market_signal : String
  hype_score : Int
  confidence : ℚ
deriving Repr, DecidableEq

/-- `RedisVectorMemory._extract_topic_pattern`: classify the verdict context
into a pattern kind, or `none` when no pattern applies (embedding creation is
elided — the embedding is never read back). -/
def _extract_topic_pattern (ctx : MemoryWriteContext) : Option ExtractedPattern :=
  let hypeStr := toString ctx.hype_score
  let base : Option (String × String) :=
    if ctx.market_signal = "weak" then
      some ("vaporware_risk", "Limited adoption, high vaporware risk (hype: " ++ hypeStr ++ "/10)")
    else if ctx.market_signal = "strong" ∧ ctx.hype_score < 5 then
      some ("production_ready", "Widely adopted in production (hype: " ++ hypeStr ++ "/10)")
    else if ctx.market_signal = "mixed" ∧ ctx.hype_score > 6 then
      some ("emerging_hyped", "Emerging with some hype (hype: " ++ hypeStr ++ "/10)")
    else none
  let risk_text := pyLower (pyJoinSpace ctx.risk_factors)
  let steep := strIn "steep" risk_text || strIn "learning curve" risk_text
  let classified : Option (String × String) :=
    if steep then
      match base with
      | some (pt, desc) => some (pt, desc ++ " | Has steep learning curve")
      | none => some ("steep_learning", "Known for steep learning curve")
    else base
  classified.map (fun (pt, desc) =>
    { pattern_type := pt
      description := desc
      market_signal := ctx.market_signal
      hype_score := ctx.hype_score
      confidence := confidence_to_float ctx.confidence })

/-- `RedisVectorMemory._store_or_reinforce_topic_pattern`. -/
def _store_or_reinforce_topic_pattern (now : Nat) (store : Store)
    (topic : String) (pattern : ExtractedPattern) : Store × Option String :=
  let normalized_topic := _normalize_topic topic
  let pattern_id := "axiom:topic_pattern:" ++ normalized_topic ++ ":" ++ pattern.pattern_type
  match alGet pattern_id store.patterns with
  | some existing =>
    let evidence_count := existing.evidence_count + 1
    let current_conf := existing.confidence
    let new_conf := (current_conf * (evidence_count - 1 : Nat) + pattern.confidence) / (evidence_count : ℚ)
    let updated := { existing with
      evidence_count := evidence_count
      confidence := new_conf
      updated_at := now }
    ({ store with patterns := alSet pattern_id updated store.patterns }, some pattern_id)
  | none =>
    let fresh : PatternRecord := {
      topic := normalized_topic
      pattern := pattern.pattern_type
      description := pattern.description
      confidence := pattern.confidence
      evidence_count := 1
      created_at := now
      updated_at := now
      market_signal := pattern.market_signal
      hype_score := pattern.hype_score }
    ({ store with patterns := alSet pattern_id fresh store.patterns }, some pattern_id)

/-- `RedisVectorMemory._extract_context_tags`. -/
def _extract_context_tags (user_context : String) : List String :=
  let context_lower := pyLower user_context
  let roles := ["backend", "frontend", "devops", "full-stack", "mobile", "data", "ai"]
  let seniorities := ["junior", "senior", "lead", "architect", "principal"]
  let tags := roles.filter (fun role => strIn role context_lower) ++
    seniorities.filter (fun s => strIn s context_lower)
  if tags.isEmpty then ["general"] else tags

/-- `RedisVectorMemory._extract_categories` (`list(set(categories))` is
modelled as order-preserving deduplication; Python's set iteration order is
unspecified, and no verified property depends on the order). -/
def _extract_categories (topic reasoning user_context : String) : List String :=
  let topic_lower := pyLower topic
  let topic_cats : List (String × List String) :=
    [("database", ["sql", "postgres", "mysql", "redis", "mongodb", "database"]),
     ("frontend", ["react", "vue", "angular", "javascript", "typescript", "css"]),
     ("backend", ["api", "server", "backend", "fastapi", "django", "flask"]),
     ("devops", ["docker", "kubernetes", "ci/cd", "terraform", "aws", "cloud"]),
     ("ai_ml", ["llm", "ai", "machine learning", "tensorflow", "pytorch"])]
  let fromTopic := (topic_cats.filter
    (fun cat => cat.2.any (fun keyword => strIn keyword topic_lower))).map Prod.fst
  let reasoning_lower := pyLower reasoning
  let fromReasoning :=
    (if ["performance", "speed", "latency"].any (fun w => strIn w reasoning_lower)
     then ["performance"] else []) ++
    (if ["cost", "price", "budget"].any (fun w => strIn w reasoning_lower)
     then ["cost"] else []) ++
    (if ["learn", "education", "tutorial"].any (fun w => strIn w reasoning_lower)
     then ["learning"] else [])
  let _ := user_context
  (fromTopic ++ fromReasoning).dedup

/-- `RedisVectorMemory._store_decision` (IDEMPOTENT): compute the
`(topic, reasoning)` signature; if the signature key is live, return the
existing record id without writing; otherwise `HSET` the decision record at
`axiom:decision:{user_id}:{md5(topic)[:12]}`, then `SETEX` the signature key
to that id.  The reasoning embedding is write-only and elided. -/
def _store_decision (now : Nat) (store : Store) (ctx : MemoryWriteContext) :
    Store × Option String :=
  let sig := decision_sig ctx.topic ctx.reasoning
  let sig_key := "axiom:decision_sig:" ++ sig
  match alGet sig_key store.sigs with
  | some existing_id => (store, some existing_id)
  | none =>
    let decision_id := "axiom:decision:" ++ ctx.user_id ++ ":" ++ topic_hash ctx.topic
    let record : DecisionRecord := {
      user_id := ctx.user_id
      topic := ctx.topic
      verdict := ctx.verdict
      reasoning := ctx.reasoning
      confidence := confidence_to_float ctx.confidence
      created_at := now
      ttl_days := 7
      categories := _extract_categories ctx.topic ctx.reasoning ctx.user_context
      market_signal := ctx.market_signal
      hype_score := ctx.hype_score }
    let store := { store with decisions := alSet decision_id record store.decisions }
    let store := { store with sigs := alSet sig_key decision_id store.sigs }
    (store, some decision_id)

/-- What `RedisVectorMemory.process_verdict` reports back (the `results` dict;
the `metrics` counters are monitoring-only and elided). -/
structure ProcessResults where
  user_traits : List (String × String × ℚ) := []
  topic_patterns : List (String × String × ℚ) := []
  decision_stored : Bool := false
  decision_id : Option String := none
  reason_memory : Option String := none
  reason_violation : Option String := none
  reason_user : Option PolicyResult := none
  reason_topic : Option PolicyResult := none
  reason_decision : Option PolicyResult := none
deriving Repr, DecidableEq

/-- `RedisVectorMemory.process_verdict`.  `memory_ok` is the result of
`_check_memory_threshold` (an external probe of Redis memory usage) and
`extract_user_traits` stands for `_extract_user_traits` (whose output is a
similarity score against sentence-transformer embeddings, an external
oracle; it returns `[]` when no embedder is configured). -/
def process_verdict (memory_ok : Bool)
    (extract_user_traits : MemoryWriteContext → List ExtractedTrait)
    (now : Nat) (store : Store) (ctx : MemoryWriteContext) :
    Store × ProcessResults :=
  if !memory_ok then
    (store, { reason_memory := some "memory_threshold_exceeded" })
  else if detect_contract_violation ctx.signal_status ctx.market_signal ctx.verdict
      ctx.hype_score ctx.reasoning ctx.confidence then
    (store, { reason_violation := some "contract_violation_detected" })
  else
    let (user_allowed, user_reason) := should_write_user_memory ctx
    let (store, trait_results) :=
      if user_allowed then
        (extract_user_traits ctx).foldl
          (fun (acc : Store × List (String × String × ℚ)) trait =>
            let (store', trait_id) := _store_or_reinforce_user_trait now acc.1 ctx.user_id trait
            match trait_id with
            | some _ => (store', acc.2 ++ [(trait.trait_type, trait.description, trait.confidence)])
            | none => (store', acc.2))
          (store, [])
      else (store, [])
    let (topic_allowed, topic_reason) := should_write_topic_memory ctx
    let (store, pattern_results) :=
      if topic_allowed then
        match _extract_topic_pattern ctx with
        | some pattern =>
          let (store', pattern_id) := _store_or_reinforce_topic_pattern now store ctx.topic pattern
          match pattern_id with
          | some _ => (store', [(pattern.pattern_type, pattern.description, pattern.confidence)])
          | none => (store', [])
        | none => (store, [])
      else (store, [])
    let (decision_allowed, decision_reason) := should_write_decision_memory ctx
    let (store, decision_stored, decision_id) :=
      if decision_allowed then
        let (store', did) := _store_decision now store ctx
        match did with
        | some d => (store', true, some d)
        | none => (store', false, none)
      else (store, false, none)
    (store,
      { user_traits := trait_results
        topic_patterns := pattern_results
        decision_stored := decision_stored
        decision_id := decision_id
        reason_user := some user_reason
        reason_topic := some topic_reason
        reason_decision := some decision_reason })

/-! ## `backend/memory/redis_vector.py` — the read path

RediSearch queries (`FT.SEARCH` with `@field:{value}`, `sort_by`, `paging`)
are modelled as: filter the record family on the field, sort by the sort key
(descending, as every call passes `asc=False`), and take the page size.
The `@topic:*word*` wildcard query is substring match on the field.  The
"semantic" pattern search issues `Query("*")` without a KNN clause (the
vector parameter is never referenced by the query string), so it is exactly
"all patterns sorted by confidence".
-/

/-- Stable insertion sort by a boolean `le`, standing in for RediSearch
`sort_by`. -/
def insertBy {α : Type} (le : α → α → Bool) (a : α) : List α → List α
  | [] => [a]
  | b :: bs => if le a b then a :: b :: bs else b :: insertBy le a bs

/-- Sort a list by `le` (insertion sort). -/
def sortBy {α : Type} (le : α → α → Bool) : List α → List α
  | [] => []
  | a :: as => insertBy le a (sortBy le as)

/-- Python's `s[:n] + "..." if len(s) > n else s`. -/
def pyTruncate (n : Nat) (s : String) : String :=
  if s.data.length > n then ⟨s.data.take n⟩ ++ "..." else s

/-- Round half to even on ℚ (Python's `round` tie-breaking). -/
def roundHalfEven (x : ℚ) : ℤ :=
  let f := ⌊x⌋
  let r := x - f
  if r < 1/2 then f
  else if 1/2 < r then f + 1
  else if f % 2 = 0 then f else f + 1

/-- Python's `round(x, ndigits)` on exact rationals (binary floating-point
representation error is not modelled; no verified property depends on a tie). -/
def pyRound (x : ℚ) (ndigits : Nat) : ℚ :=
  (roundHalfEven (x * 10 ^ ndigits) : ℚ) / 10 ^ ndigits

/-- A user-trait search hit as returned by `_get_user_traits`. -/
structure TraitView where
  fact : String
  confidence : ℚ
deriving Repr, DecidableEq

/-- A topic-pattern search hit as returned by the pattern searches. -/
structure PatternView where
  pattern : String
  description : String
  evidence_count : Nat
  confidence : ℚ
  market_signal : String
  hype_score : Int
deriving Repr, DecidableEq

/-- A similar-decision dict as stored in `MemoryContext.similar_decisions`.
Fields are optional because the consumer (`resolve_decision_trajectory`)
reads them with `dict.get` defaults. -/
structure SimilarDecision where
  topic : Option String := none
  verdict : Option String := none
  reasoning : Option String := none
  confidence : Option ℚ := none
  days_ago : Option ℚ := none
  market_signal : Option String := none
deriving Repr, DecidableEq

/-- `MemoryContext` (schemas.py): the bundle the read path assembles. -/
structure MemoryContext where
  user_traits : List TraitView := []
  topic_patterns : List PatternView := []
  similar_decisions : List SimilarDecision := []
deriving Repr, DecidableEq

/-- `RedisVectorMemory._get_user_traits`: traits of the user sorted by
confidence, first `limit` of them. -/
def _get_user_traits (store : Store) (user_id : String) (limit : Nat) :
    List TraitView :=
  let hits := (store.traits.map Prod.snd).filter (fun r => r.user_id == user_id)
  let sorted := sortBy (fun a b => decide (b.confidence ≤ a.confidence)) hits
  (sorted.take limit).map (fun r => { fact := r.fact, confidence := r.confidence })

/-- Match of the `@topic:{q}` query against a stored topic field: `*w*` is
substring search, anything else exact match. -/
def topicQueryMatches (q : String) (topicField : String) : Bool :=
  let qs := q.data
  if qs.length ≥ 2 ∧ qs.head? = some '*' ∧ qs.getLast? = some '*' then
    listHasSub ((qs.drop 1).dropLast) topicField.data
  else topicField == q

/-- View of a stored pattern record. -/
def patternView (r : PatternRecord) : PatternView :=
  { pattern := r.pattern
    description := r.description
    evidence_count := r.evidence_count
    confidence := r.confidence
    market_signal := r.market_signal
    hype_score := r.hype_score }

/-- `RedisVectorMemory._search_topic_patterns`: patterns matching the topic
query (exact or wildcard), sorted by evidence count, first `limit`. -/
def _search_topic_patterns (store : Store) (topic : String) (limit : Nat) :
    List PatternView :=
  let hits := (store.patterns.map Prod.snd).filter (fun r => topicQueryMatches topic r.topic)
  let sorted := sortBy (fun a b => decide (b.evidence_count ≤ a.evidence_count)) hits
  (sorted.take limit).map patternView

/-- `RedisVectorMemory._semantic_search_topic_patterns`: `Query("*")` sorted
by confidence, first `limit` (the embedding parameter is unused by the query
string, so this is all patterns by confidence). -/
def _semantic_search_topic_patterns (store : Store) (limit : Nat) :
    List PatternView :=
  let hits := store.patterns.map Prod.snd
  let sorted := sortBy (fun a b => decide (b.confidence ≤ a.confidence)) hits
  (sorted.take limit).map patternView

/-- `RedisVectorMemory._get_recent_decisions`: the user's decisions sorted by
creation time (most recent first), first `limit`, rendered as dicts with the
reasoning truncated to 100 characters. -/
def _get_recent_decisions (now : Nat) (store : Store) (user_id : String)
    (limit : Nat) : List SimilarDecision :=
  let hits := (store.decisions.map Prod.snd).filter (fun r => r.user_id == user_id)
  let sorted := sortBy (fun a b => decide (b.created_at ≤ a.created_at)) hits
  (sorted.take limit).map (fun r =>
    { topic := some r.topic
      verdict := some r.verdict
      reasoning := some (pyTruncate 100 r.reasoning)
      days_ago := some (pyRound (((now : ℚ) - (r.created_at : ℚ)) / 86400) 1) })

/-- `RedisVectorMemory.get_memory_context`: top-5 user traits; topic patterns
by exact normalized-topic match, falling back to the semantic search (when a
query and an embedder are available), falling back to wildcard word match,
truncated to 3; recent decisions fetched with `limit=5`. -/
def get_memory_context (embedder : Bool) (now : Nat) (store : Store)
    (user_id topic current_query : String) : MemoryContext :=
  let normalized_topic := _normalize_topic topic
  let user_traits := _get_user_traits store user_id 5
  let exact_patterns := _search_topic_patterns store normalized_topic 3
  let topic_patterns := exact_patterns
  let topic_patterns :=
    if topic_patterns.isEmpty ∧ current_query ≠ "" ∧ embedder then
      topic_patterns ++ _semantic_search_topic_patterns store 3
    else topic_patterns
  let topic_patterns :=
    if topic_patterns.isEmpty then
      ((pySplit normalized_topic).filter (fun word => word.data.length > 3)).foldl
        (fun acc word => acc ++ _search_topic_patterns store ("*" ++ word ++ "*") 2)
        topic_patterns
    else topic_patterns
  { user_traits := user_traits
    topic_patterns := topic_patterns.take 3
    similar_decisions := _get_recent_decisions now store user_id 5 }

/-! ## `backend/graph/graph_utils.py` — the verdict stage

The LLM invocation (`chain.invoke`) is an external oracle: `verdict_node`
takes `llm_response : Option VerdictResultDict`, where `none` models the
exception path (which substitutes the hard-coded fallback dict; the
interpolated exception text is elided).  Prompt construction
(`enhance_verdict_prompt`, the prompt templates) only affects the oracle's
input and is not modelled.  `MEMORY_AVAILABLE` (import-success flag) is the
`memory_available` parameter.
-/

/-- `SignalFramingOutput` (graph_utils.py), restricted to the fields the
verdict stage reads (`domain`/`horizon`/`user_context_summary` feed only the
prompts). -/
structure SignalFramingOutput where
  status : String
  confidence_level : Option String := none
deriving Repr, DecidableEq

/-- `RealityCheckOutput` (graph_utils.py), restricted to the fields the
verdict stage reads (sources and the ledger buckets feed only the result
payload). -/
structure RealityCheckOutput where
  feasibility : String
  market_signal : String
  risk_factors : List String
  known_unknowns : List String := []
  hype_score : Int
  evidence_summary : String
deriving Repr, DecidableEq

/-- `VerdictOutput` (graph_utils.py). -/
structure VerdictOutput where
  verdict : String
  reasoning : String
  action_items : List String
  timeline : String
  confidence : String
deriving Repr, DecidableEq

/-- `AxiomState` (graph_utils.py), restricted to the fields the verdict stage
reads or writes; called `PipelineState` as in the specification
(`sources`, `tool_evidence`, `ledger`, `user_profile` are payload-only). -/
structure PipelineState where
  topic : String
  signal : Option SignalFramingOutput := none
  reality_check : Option RealityCheckOutput := none
  verdict : Option VerdictOutput := none
  memory_context : Option MemoryContext := none
  memory_hints : Option String := none
  memory_relevance_score : Option ℚ := none
  signal_evidence_alignment : Option ℚ := none
  evidence_verdict_alignment : Option ℚ := none
  chain_coherence_score : Option ℚ := none
  contract_violation : Bool := false
  violations : List String := []
  knowledge_gap : Bool := false
deriving Repr, DecidableEq

/-- `check_contract` (graph_utils.py): record a violation when the condition
holds (non-empty stripped reasons only). -/
def check_contract (condition : Bool) (reason : String) (state : PipelineState) :
    PipelineState :=
  if condition then
    let state := { state with contract_violation := true }
    if pyStrip reason ≠ "" then
      { state with violations := state.violations ++ [pyStrip reason] }
    else state
  else state

/-- `calculate_alignment` (graph_utils.py). -/
def calculate_alignment (claimed_confidence : String) (evidence_strength : ℚ) : ℚ :=
  let claimed_value : ℚ :=
    if claimed_confidence = "low" then 3/10
    else if claimed_confidence = "medium" then 6/10
    else if claimed_confidence = "high" then 9/10
    else 6/10
  let divergence := |claimed_value - evidence_strength|
  let alignment := max 0 (1 - divergence)
  pyRound alignment 3

/-- `evidence_strength_from_market` (graph_utils.py):
`baseline(market) * (1 - max(0, (hype - 6)/10))`, clamped at 0. -/
def evidence_strength_from_market (market_signal : String) (hype_score : Int) : ℚ :=
  let base : ℚ :=
    if market_signal = "weak" then 2/10
    else if market_signal = "mixed" then 6/10
    else if market_signal = "strong" then 9/10
    else 3/10
  let penalty : ℚ := max 0 (((hype_score : ℚ) - 6) / 10)
  max 0 (base * (1 - penalty))

/-- One decision dict matches the trajectory scan: its verdict (lowered) is
`"explore"` and its topic (lowered, stripped) lexically overlaps the current
topic — a shared `split()` word, or either topic contained in the other. -/
def trajMatches (topic_normalized : String) (d : SimilarDecision) : Bool :=
  let decision_topic := pyStrip (pyLower (d.topic.getD ""))
  let decision_verdict := pyLower (d.verdict.getD "")
  decision_verdict == "explore" &&
    ((pySplit topic_normalized).any (fun w => (pySplit decision_topic).contains w) ||
     strIn topic_normalized decision_topic ||
     strIn decision_topic topic_normalized)

/-- The scan loop of `resolve_decision_trajectory`: keep the matching
decision with the smallest `days_ago` (default 999). -/
def find_recent_explore (topic_normalized : String) :
    List SimilarDecision → Option SimilarDecision → Option SimilarDecision
  | [], acc => acc
  | d :: rest, acc =>
    if trajMatches topic_normalized d then
      match acc with
      | none => find_recent_explore topic_normalized rest (some d)
      | some r =>
        if d.days_ago.getD 999 < r.days_ago.getD 999 then
          find_recent_explore topic_normalized rest (some d)
        else find_recent_explore topic_normalized rest (some r)
    else find_recent_explore topic_normalized rest acc

/-- `resolve_decision_trajectory` (graph_utils.py): if a previous `"explore"`
decision for an overlapping topic is in the memory context, force `"pursue"`
exactly when (market strong OR feasibility high) AND hype ≤ 6; otherwise
return `none` (decision left to the LLM).  The `reality_check = none` arm is
unreachable from `verdict_node`, which fills the reality check first; it is
modelled as `none`. -/
def resolve_decision_trajectory (state : PipelineState)
    (memory_context : Option MemoryContext) : Option String :=
  match memory_context with
  | none => none
  | some mc =>
    if mc.similar_decisions.isEmpty then none
    else
      let topic_normalized := pyStrip (pyLower state.topic)
      match find_recent_explore topic_normalized mc.similar_decisions none with
      | some _ =>
        match state.reality_check with
        | some rc =>
          let upgrade_allowed := rc.market_signal == "strong" || rc.feasibility == "high"
          if upgrade_allowed && decide (rc.hype_score ≤ 6) then some "pursue" else none
        | none => none
      | none => none

/-- The raw dict the LLM returns for the verdict (every key may be missing). -/
structure VerdictResultDict where
  verdict : Option String := none
  reasoning : Option String := none
  action_items : Option (List String) := none
  timeline : Option String := none
  confidence : Option String := none
deriving Repr, DecidableEq

/-- A validated verdict dict: all fields filled. -/
structure VerdictResult where
  verdict : String
  reasoning : String
  action_items : List String
  timeline : String
  confidence : String
deriving Repr, DecidableEq

/-- The per-verdict default action items of `validate_and_fix_verdict_result`
(unknown verdicts fall back to the `"explore"` defaults). -/
def verdict_default_actions (verdict : String) : List String :=
  if verdict = "pursue" then
    ["Begin hands-on implementation or deeper learning",
     "Allocate dedicated time for skill development"]
  else if verdict = "explore" then
    ["Research the current state of this technology",
     "Evaluate its potential applications and use cases"]
  else if verdict = "watchlist" then
    ["Re-evaluate in 3 months with fresher evidence",
     "Do not decay or upgrade until more signal"]
  else if verdict = "ignore" then
    ["Focus on established technologies with proven value",
     "Re-evaluate when clearer signal emerges"]
  else
    ["Research the current state of this technology",
     "Evaluate its potential applications and use cases"]

/-- `validate_and_fix_verdict_result` (graph_utils.py): strip and drop empty
action items, pad to 2 from the per-verdict defaults, cap at 4, and fill the
remaining fields with their documented defaults. -/
def validate_and_fix_verdict_result (result : VerdictResultDict)
    (verdict_type : Option String) : VerdictResult :=
  let action_items := ((result.action_items.getD []).map pyStrip).filter (· ≠ "")
  let action_items :=
    if action_items.length < 2 then
      let vt := match verdict_type with
        | some v => if v = "" then "explore" else v
        | none => "explore"
      let verdict := result.verdict.getD vt
      let needed := 2 - action_items.length
      action_items ++ (verdict_default_actions verdict).take needed
    else action_items
  let action_items := if action_items.length > 4 then action_items.take 4 else action_items
  let verdict := result.verdict.getD "explore"
  { verdict := verdict
    reasoning := result.reasoning.getD "Analysis completed with available information."
    action_items := action_items
    timeline := result.timeline.getD
      (if verdict = "watchlist" then "re-evaluate in 3 months" else "in 3 months")
    confidence := result.confidence.getD "medium" }

/-- The hard-coded fallback dict substituted when the LLM invocation raises
(the interpolated exception text is elided). -/
def llm_fallback_result : VerdictResultDict :=
  { verdict := some "ignore"
    reasoning := some "Error during verdict analysis: "
    action_items := some ["Re-evaluate when system is available",
                          "Check system logs for details"]
    timeline := some "wait 6+ months"
    confidence := some "low" }

/-- The defensive `RealityCheckOutput` substituted when `reality_check` is
missing at the top of `verdict_node`. -/
def missing_reality_check : RealityCheckOutput :=
  { feasibility := "low"
    market_signal := "weak"
    risk_factors := ["Missing reality check data"]
    known_unknowns := []
    hype_score := 0
    evidence_summary := "Reality check data unavailable" }

/-- `verdict_node` (graph_utils.py), Node 3 of the pipeline: knowledge-gap
flagging, the insufficient-signal short-circuit, the pre-verdict contract
checks and gate, the decision-trajectory resolver, the LLM call with
validation, confidence dampening, memory calibration, and the alignment /
coherence scores. -/
def verdict_node (memory_available : Bool) (llm_response : Option VerdictResultDict)
    (state : PipelineState) : PipelineState :=
  let rc := state.reality_check.getD missing_reality_check
  let state := { state with reality_check := some rc }
  let kg : Bool :=
    (match state.signal with
     | some sig => sig.status == "insufficient_signal"
     | none => false) &&
    (rc.market_signal == "strong" || rc.market_signal == "mixed")
  let state := { state with knowledge_gap := kg }
  let hype := rc.hype_score
  let market := rc.market_signal
  let evidence_strength := evidence_strength_from_market market hype
  if (match state.signal with
      | some sig => sig.status == "insufficient_signal"
      | none => false) then
    if state.knowledge_gap then
      { state with verdict := some {
          verdict := "watchlist"
          reasoning := "Model knowledge is lagging but market evidence suggests this is established or emerging. Do not decay or upgrade yet; re-evaluate with fresher sources."
          action_items := ["Re-evaluate when external evidence (docs, adoption) is available",
                           "Do not ignore based on model prior alone"]
          timeline := "re-evaluate in 3 months"
          confidence := "low" } }
    else
      { state with verdict := some {
          verdict := "ignore"
          reasoning := "The topic lacks sufficient public clarity or substance to justify investment of time."
          action_items := ["Do not allocate learning time unless clearer signal emerges",
                           "Focus on established technologies with proven value"]
          timeline := "wait 6+ months"
          confidence := "low" } }
  else
    let state :=
      match state.signal with
      | some sig =>
        let signal_confidence := match sig.confidence_level with
          | some c => if c = "" then "low" else c
          | none => "low"
        let state := check_contract
          (signal_confidence == "high" && decide (evidence_strength < 1/2))
          "High confidence signal contradicts weak evidence strength" state
        check_contract
          (sig.status == "insufficient_signal" && signal_confidence == "high")
          "Insufficient signal cannot have high confidence" state
      | none => state
    if state.contract_violation then
      let violation_items := (state.violations.filter (· ≠ "")).map (fun v => "• " ++ v)
      let violation_items :=
        if violation_items.length < 2 then
          violation_items ++ ["• Re-evaluate when evidence is clearer"]
        else violation_items
      let violation_items := violation_items.take 4
      if state.knowledge_gap then
        { state with verdict := some {
            verdict := "watchlist"
            reasoning := "Contract violations detected (model certainty vs thin evidence). Market signal suggests established tech; classify as knowledge gap, not weak tech. Re-evaluate with fresher evidence."
            action_items := violation_items
            timeline := "re-evaluate in 3 months"
            confidence := "low" } }
      else
        { state with verdict := some {
            verdict := "ignore"
            reasoning := "Contract violations detected during evaluation. The analysis contains contradictions that prevent a reliable recommendation."
            action_items := violation_items
            timeline := "wait 6+ months"
            confidence := "low" } }
    else
      let memory_context_obj : Option MemoryContext :=
        if memory_available then state.memory_context else none
      let forced_verdict := resolve_decision_trajectory state memory_context_obj
      if forced_verdict == some "pursue" then
        { state with verdict := some {
            verdict := "pursue"
            reasoning := "Previous exploration of similar topics combined with current market signal (" ++ market ++ ") and feasibility (" ++ rc.feasibility ++ ") indicates this is worth pursuing now. Conditions have strengthened since initial exploration."
            action_items := ["Begin hands-on implementation or deeper learning",
                             "Allocate dedicated time for skill development",
                             "Build a practical project to validate understanding"]
            timeline := "now"
            confidence := "high" } }
      else
        let result_dict := llm_response.getD llm_fallback_result
        let result := validate_and_fix_verdict_result result_dict result_dict.verdict
        let result :=
          if evidence_strength < 1/2 ∧ result.confidence = "high" then
            { result with
                confidence := "medium"
                reasoning := result.reasoning ++ " [Confidence dampened: thin evidence does not support high confidence]" }
          else result
        let result :=
          if (match state.signal with
              | some sig => sig.status == "insufficient_signal"
              | none => false) then
            { result with
                confidence := "low"
                reasoning := result.reasoning ++ " [Confidence set to low due to insufficient signal]" }
          else result
        let verdictOut : VerdictOutput :=
          { verdict := result.verdict
            reasoning := result.reasoning
            action_items := result.action_items
            timeline := result.timeline
            confidence := result.confidence }
        let verdictOut :=
          if verdictOut.confidence == "high" &&
              (match state.memory_relevance_score with
               | some m => decide (m ≠ 0) && decide (7/10 < m)
               | none => false) &&
              (match state.memory_hints with
               | some h => h != "" && strIn "contradict" (pyLower h)
               | none => false) then
            { verdictOut with
                confidence := "medium"
                reasoning := verdictOut.reasoning ++ " [Confidence lowered due to contradictory memory patterns]" }
          else verdictOut
        let state := { state with verdict := some verdictOut }
        let state := { state with
          evidence_verdict_alignment :=
            some (calculate_alignment verdictOut.confidence evidence_strength) }
        let signal_alignment := state.signal_evidence_alignment.getD (1/2)
        let verdict_alignment := state.evidence_verdict_alignment.getD (1/2)
        let state :=
          match state.memory_relevance_score with
          | some m =>
            if m ≠ 0 ∧ 0 < m then
              { state with
                chain_coherence_score :=
                  some (pyRound ((signal_alignment + verdict_alignment + m) / 3) 3) }
            else
              { state with
                chain_coherence_score :=
                  some (pyRound ((signal_alignment + verdict_alignment) / 2) 3) }
          | none =>
            { state with
              chain_coherence_score :=
                some (pyRound ((signal_alignment + verdict_alignment) / 2) 3) }
        state

/-! ## Interleaving model of `_store_decision` for the concurrency claim

`_store_decision` issues three Redis commands in order: `GET sig_key`,
`HSET decision_id mapping`, `SETEX sig_key decision_id`.  Each command is
atomic at the store, but nothing makes the triple atomic (no `SET NX`, no
`WATCH`/`MULTI`).  `decThreadStep` is one command of one in-flight call;
`runSchedule` interleaves two calls under an explicit schedule.
-/

/-- The decision record `_store_decision` writes (shared between the direct
definition and the interleaved model). -/
def decisionRecordOf (now : Nat) (ctx : MemoryWriteContext) : DecisionRecord :=
  { user_id := ctx.user_id
    topic := ctx.topic
    verdict := ctx.verdict
    reasoning := ctx.reasoning
    confidence := confidence_to_float ctx.confidence
    created_at := now
    ttl_days := 7
    categories := _extract_categories ctx.topic ctx.reasoning ctx.user_context
    market_signal := ctx.market_signal
    hype_score := ctx.hype_score }

/-- Program counter of an in-flight `_store_decision` call. -/
inductive DecStep where
  | checkSig
  | writeRecord
  | writeSig
  | finished
deriving Repr, DecidableEq

/-- An in-flight `_store_decision` call: its inputs, program counter, and
return value once finished. -/
structure DecThread where
  ctx : MemoryWriteContext
  now : Nat
  pc : DecStep := .checkSig
  result : Option String := none
deriving Repr, DecidableEq

/-- Execute the next atomic Redis command of one in-flight call. -/
def decThreadStep (t : DecThread) (store : Store) : DecThread × Store :=
  let sig_key := "axiom:decision_sig:" ++ decision_sig t.ctx.topic t.ctx.reasoning
  let decision_id := "axiom:decision:" ++ t.ctx.user_id ++ ":" ++ topic_hash t.ctx.topic
  match t.pc with
  | .checkSig =>
    match alGet sig_key store.sigs with
    | some existing_id => ({ t with pc := .finished, result := some existing_id }, store)
    | none => ({ t with pc := .writeRecord }, store)
  | .writeRecord =>
    ({ t with pc := .writeSig },
     { store with decisions := alSet decision_id (decisionRecordOf t.now t.ctx) store.decisions })
  | .writeSig =>
    ({ t with pc := .finished, result := some decision_id },
     { store with sigs := alSet sig_key decision_id store.sigs })
  | .finished => (t, store)

/-- Interleave two in-flight calls: `true` steps the first thread, `false`
the second. -/
def runSchedule : List Bool → DecThread × DecThread × Store → DecThread × DecThread × Store
  | [], s => s
  | pick :: rest, (a, b, store) =>
    if pick then
      let (a', store') := decThreadStep a store
      runSchedule rest (a', b, store')
    else
      let (b', store') := decThreadStep b store
      runSchedule rest (a, b', store')

/-- Sanity: a call run alone (three consecutive steps of one thread) computes
exactly `_store_decision` — the interleaved model refines the direct
definition. -/
theorem decThread_alone_eq_store_decision (ctx : MemoryWriteContext) (now : Nat)
    (store : Store) (b : DecThread) :
    (((runSchedule [true, true, true] (⟨ctx, now, .checkSig, none⟩, b, store)).2.2),
      (runSchedule [true, true, true] (⟨ctx, now, .checkSig, none⟩, b, store)).1.result) =
    _store_decision now store ctx := by
  cases h : alGet ("axiom:decision_sig:" ++ decision_sig ctx.topic ctx.reasoning) store.sigs <;>
    simp [runSchedule, decThreadStep, _store_decision, decisionRecordOf, h]

/-! ## Association-list lemmas -/

theorem alGet_alSet_self {α : Type} (k : String) (v : α) (l : List (String × α)) :
    alGet k (alSet k v l) = some v := by
  induction l with
  | nil => simp [alGet, alSet]
  | cons hd tl ih =>
    by_cases h : hd.1 = k
    · simp [alGet, alSet, h]
    · simp [alGet, alSet, h, ih]

theorem alSet_length_of_get_none {α : Type} (k : String) (v : α)
    (l : List (String × α)) (h : alGet k l = none) :
    (alSet k v l).length = l.length + 1 := by
  induction l with
  | nil => simp [alSet]
  | cons hd tl ih =>
    by_cases hk : hd.1 = k
    · simp [alGet, hk] at h
    · simp [alGet, hk] at h
      simp [alSet, hk, ih h]

/-! ## Claim theorems -/

/-- **C1** — Universal write gate: for every `MemoryWriteContext` with
`contract_violation` set, all three policy functions return
`(false, contract_violation)` regardless of every other field, and
`process_verdict` leaves the store unchanged (performs no memory write),
for every memory-threshold outcome and every trait-extraction oracle. -/
theorem C1_universal_write_gate (ctx : MemoryWriteContext)
    (h : ctx.contract_violation = true) :
    should_write_user_memory ctx = (false, .contract_violation) ∧
    should_write_topic_memory ctx = (false, .contract_violation) ∧
    should_write_decision_memory ctx = (false, .contract_violation) ∧
    ∀ (memory_ok : Bool) (extract : MemoryWriteContext → List ExtractedTrait)
      (now : Nat) (store : Store),
      (process_verdict memory_ok extract now store ctx).1 = store := by
  have hu : _check_universal_gates ctx = (false, .contract_violation) := by
    simp [_check_universal_gates, h]
  have h1 : should_write_user_memory ctx = (false, .contract_violation) := by
    simp [should_write_user_memory, hu]
  have h2 : should_write_topic_memory ctx = (false, .contract_violation) := by
    simp [should_write_topic_memory, hu]
  have h3 : should_write_decision_memory ctx = (false, .contract_violation) := by
    simp [should_write_decision_memory, hu]
  refine ⟨h1, h2, h3, ?_⟩
  intro memory_ok extract now store
  cases memory_ok with
  | false => simp [process_verdict]
  | true =>
    by_cases hd : detect_contract_violation ctx.signal_status ctx.market_signal
        ctx.verdict ctx.hype_score ctx.reasoning ctx.confidence = true
    · simp [process_verdict, hd]
    · simp [process_verdict, hd, h1, h2, h3]

/-- **C1 witness**: a concrete context with `contract_violation = true`. -/
theorem C1_universal_write_gate_witness :
    ({ user_id := "u", topic := "t", verdict := "pursue", confidence := "high",
       reasoning := "r", user_context := "c", market_signal := "strong",
       hype_score := 3, risk_factors := [], signal_status := "ok",
       contract_violation := true } : MemoryWriteContext).contract_violation = true ∧
    (process_verdict true (fun _ => []) 0 {}
      { user_id := "u", topic := "t", verdict := "pursue", confidence := "high",
        reasoning := "r", user_context := "c", market_signal := "strong",
        hype_score := 3, risk_factors := [], signal_status := "ok",
        contract_violation := true }).1 = ({} : Store) :=
  ⟨rfl, (C1_universal_write_gate _ rfl).2.2.2 true (fun _ => []) 0 {}⟩

/-- `_store_decision` when the signature key is live: return the indexed id,
store untouched. -/
theorem _store_decision_existing (now : Nat) (store : Store)
    (ctx : MemoryWriteContext) (id : String)
    (h : alGet ("axiom:decision_sig:" ++ decision_sig ctx.topic ctx.reasoning)
      store.sigs = some id) :
    _store_decision now store ctx = (store, some id) := by
  simp [_store_decision, h]

/-- **C2 (amended)** — Decision-store idempotence on a fresh signature: if
neither the `(topic, reasoning)` signature key nor the `(user_id, topic)`
record key is live, calling `_store_decision` twice in sequence (within the
decision TTL, during which the written keys are live) returns the same record
id both times, the second call leaves the store unchanged, and exactly one
decision record is created. -/
theorem C2_decision_store_idempotent (store : Store) (ctx : MemoryWriteContext)
    (now now' : Nat)
    (hsig : alGet ("axiom:decision_sig:" ++ decision_sig ctx.topic ctx.reasoning)
      store.sigs = none)
    (hdec : alGet ("axiom:decision:" ++ ctx.user_id ++ ":" ++ topic_hash ctx.topic)
      store.decisions = none) :
    (_store_decision now store ctx).2 =
      some ("axiom:decision:" ++ ctx.user_id ++ ":" ++ topic_hash ctx.topic) ∧
    (_store_decision now' (_store_decision now store ctx).1 ctx).2 =
      (_store_decision now store ctx).2 ∧
    (_store_decision now' (_store_decision now store ctx).1 ctx).1 =
      (_store_decision now store ctx).1 ∧
    (_store_decision now store ctx).1.decisions.length =
      store.decisions.length + 1 := by
  have hfirst : _store_decision now store ctx =
      ({ store with
          decisions := alSet ("axiom:decision:" ++ ctx.user_id ++ ":" ++ topic_hash ctx.topic)
            (decisionRecordOf now ctx) store.decisions
          sigs := alSet ("axiom:decision_sig:" ++ decision_sig ctx.topic ctx.reasoning)
            ("axiom:decision:" ++ ctx.user_id ++ ":" ++ topic_hash ctx.topic) store.sigs },
        some ("axiom:decision:" ++ ctx.user_id ++ ":" ++ topic_hash ctx.topic)) := by
    simp [_store_decision, hsig, decisionRecordOf]
  have hsecond : alGet ("axiom:decision_sig:" ++ decision_sig ctx.topic ctx.reasoning)
      (_store_decision now store ctx).1.sigs =
      some ("axiom:decision:" ++ ctx.user_id ++ ":" ++ topic_hash ctx.topic) := by
    rw [hfirst]
    exact alGet_alSet_self _ _ _
  have hrepeat := _store_decision_existing now' (_store_decision now store ctx).1 ctx _ hsecond
  refine ⟨by rw [hfirst], ?_, ?_, ?_⟩
  · rw [hrepeat, hfirst]
  · rw [hrepeat]
  · rw [hfirst]
    exact alSet_length_of_get_none _ _ _ hdec

/-- **C2 witness**: the amended idempotence at a concrete fresh store. -/
theorem C2_decision_store_idempotent_witness :
    (_store_decision 1 {}
      { user_id := "u", topic := "t", verdict := "explore",
        confidence := "medium", reasoning := "r", user_context := "",
        market_signal := "mixed", hype_score := 3, risk_factors := [],
        signal_status := "ok", contract_violation := false }).1.decisions.length =
      ({} : Store).decisions.length + 1 :=
  (C2_decision_store_idempotent {} _ 1 2 rfl rfl).2.2.2

/-- **C2 counterexample** — the claim as stated ("creates exactly one live
decision record" / "store count increases by exactly one" for every
`(topic, reasoning)` pair) fails on the code: the record key depends only on
`(user_id, topic)`, so when a decision for the same user and topic (but a
different reasoning) is already live, the double call returns the same id
twice yet creates zero new records — it silently overwrites the earlier
record in place. -/
theorem C2_decision_store_counterexample :
    (let ctx : MemoryWriteContext :=
      { user_id := "u", topic := "t", verdict := "explore", confidence := "medium",
        reasoning := "r2", user_context := "", market_signal := "mixed",
        hype_score := 3, risk_factors := [], signal_status := "ok",
        contract_violation := false }
     let store0 : Store :=
      { decisions := [("axiom:decision:u:t",
          { user_id := "u", topic := "t", verdict := "explore", reasoning := "r1",
            confidence := 6/10, created_at := 0, ttl_days := 7, categories := [],
            market_signal := "mixed", hype_score := 3 })]
        sigs := [("axiom:decision_sig:t|r1", "axiom:decision:u:t")] }
     (_store_decision 2 (_store_decision 1 store0 ctx).1 ctx).2 =
        (_store_decision 1 store0 ctx).2 ∧
     ¬ ((_store_decision 1 store0 ctx).1.decisions.length =
        store0.decisions.length + 1)) := by
  constructor
  · rfl
  · decide

/-- **C5** — Reinforcement law: reinforcing an existing trait or pattern
record updates its confidence to the count-weighted running average (prior
confidence weighted by the prior occurrence count plus the new observation,
divided by the new count) and increments the count by one — never an
overwrite; in particular a trait stored with confidence 0.6 and reinforced
with 0.8 ends at confidence 0.7 with `usage_count = 2`. -/
theorem C5_reinforcement_law :
    (∀ (now : Nat) (store : Store) (user_id : String) (trait : ExtractedTrait)
      (rec : TraitRecord),
      alGet ("axiom:user_trait:" ++ user_id ++ ":" ++ trait.trait_type)
          store.traits = some rec →
      alGet ("axiom:user_trait:" ++ user_id ++ ":" ++ trait.trait_type)
          (_store_or_reinforce_user_trait now store user_id trait).1.traits =
        some { rec with
          confidence := (rec.confidence * rec.usage_count + trait.confidence) /
            (rec.usage_count + 1)
          usage_count := rec.usage_count + 1
          updated_at := now }) ∧
    (∀ (now : Nat) (store : Store) (topic : String) (pattern : ExtractedPattern)
      (rec : PatternRecord),
      alGet ("axiom:topic_pattern:" ++ _normalize_topic topic ++ ":" ++ pattern.pattern_type)
          store.patterns = some rec →
      alGet ("axiom:topic_pattern:" ++ _normalize_topic topic ++ ":" ++ pattern.pattern_type)
          (_store_or_reinforce_topic_pattern now store topic pattern).1.patterns =
        some { rec with
          confidence := (rec.confidence * rec.evidence_count + pattern.confidence) /
            (rec.evidence_count + 1)
          evidence_count := rec.evidence_count + 1
          updated_at := now }) ∧
    ((alGet "axiom:user_trait:u:stability_focus"
        (_store_or_reinforce_user_trait 7
          (_store_or_reinforce_user_trait 0 {} "u"
            { trait_type := "stability_focus", description := "d",
              confidence := 3/5, context_tags := [] }).1 "u"
          { trait_type := "stability_focus", description := "d",
            confidence := 4/5, context_tags := [] }).1.traits).map
      (fun r => (r.confidence, r.usage_count)) = some ((7/10 : ℚ), 2)) := by
  refine ⟨?_, ?_, ?_⟩
  · intro now store user_id trait rec h
    simp only [_store_or_reinforce_user_trait, h]
    rw [alGet_alSet_self]
  · intro now store topic pattern rec h
    simp only [_store_or_reinforce_topic_pattern, h]
    rw [alGet_alSet_self]
    simp only [Nat.add_sub_cancel, Nat.cast_add, Nat.cast_one]
  · simp [_store_or_reinforce_user_trait, alGet, alSet]
    norm_num

/-- **C5 witness**: the general trait law applied at a concrete store holding
a trait with confidence 0.6 and count 1, reinforced with 0.8. -/
theorem C5_reinforcement_law_witness :
    alGet "axiom:user_trait:u:stability_focus"
      (_store_or_reinforce_user_trait 7
        { traits := [("axiom:user_trait:u:stability_focus",
            { user_id := "u", trait_type := "stability_focus", fact := "d",
              confidence := 3/5, created_at := 0, updated_at := 0,
              context_tags := [], usage_count := 1 })] } "u"
        { trait_type := "stability_focus", description := "d",
          confidence := 4/5, context_tags := [] }).1.traits =
      some { user_id := "u", trait_type := "stability_focus", fact := "d",
             confidence := 7/10, created_at := 0, updated_at := 7,
             context_tags := [], usage_count := 2 } := by
  have h := C5_reinforcement_law.1 7
    { traits := [("axiom:user_trait:u:stability_focus",
        { user_id := "u", trait_type := "stability_focus", fact := "d",
          confidence := 3/5, created_at := 0, updated_at := 0,
          context_tags := [], usage_count := 1 })] } "u"
    { trait_type := "stability_focus", description := "d",
      confidence := 4/5, context_tags := [] }
    { user_id := "u", trait_type := "stability_focus", fact := "d",
      confidence := 3/5, created_at := 0, updated_at := 0,
      context_tags := [], usage_count := 1 } rfl
  norm_num at h
  exact h

/-- **C6** — Contract-violation detector: for non-empty `signal_status` and
`confidence` (as strings), `detect_contract_violation` returns `true` exactly
when one of the five conditions holds: insufficient signal with high
confidence; weak market with hype ≥ 9 and verdict pursue; a
no/insufficient/lack-of-evidence phrase in the reasoning with high
confidence; weak market with high confidence and verdict pursue; hype = 10
with weak market. -/
theorem C6_contract_violation_detector (signal_status market_signal verdict : String)
    (hype_score : Int) (reasoning confidence : String)
    (hs : signal_status ≠ "") (hc : confidence ≠ "") :
    detect_contract_violation signal_status market_signal verdict hype_score
        reasoning confidence = true ↔
      ((pyStrip (pyLower signal_status) = "insufficient_signal" ∧
          pyStrip (pyLower confidence) = "high") ∨
       (market_signal = "weak" ∧ hype_score ≥ 9 ∧ verdict = "pursue") ∨
       (no_evidence_patterns.any (fun p => strIn p reasoning) = true ∧
          pyStrip (pyLower confidence) = "high") ∨
       (market_signal = "weak" ∧ pyStrip (pyLower confidence) = "high" ∧
          verdict = "pursue") ∨
       (hype_score = 10 ∧ market_signal = "weak")) := by
  simp only [detect_contract_violation]
  rw [if_neg (by tauto)]
  split_ifs <;> simp_all <;> try tauto
  all_goals norm_num at *

/-- **C6 witness**: weak market, hype 9, verdict pursue fires the detector. -/
theorem C6_contract_violation_detector_witness :
    detect_contract_violation "ok" "weak" "pursue" 9 "x" "medium" = true :=
  (C6_contract_violation_detector "ok" "weak" "pursue" 9 "x" "medium"
    (by decide) (by decide)).mpr (Or.inr (Or.inl ⟨rfl, by norm_num, rfl⟩))

/-- **C3** — Knowledge-gap bias: when the framed signal is
`insufficient_signal`, a strong or mixed market signal deterministically
yields verdict `watchlist` with confidence `low` and timeline
"re-evaluate in 3 months" (never `ignore`), while a weak market signal
deterministically yields verdict `ignore` with confidence `low` — for every
memory flag and every LLM oracle. -/
theorem C3_knowledge_gap_bias (memory_available : Bool)
    (llm_response : Option VerdictResultDict) (state : PipelineState)
    (sig : SignalFramingOutput) (rc : RealityCheckOutput)
    (hsig : state.signal = some sig)
    (hst : sig.status = "insufficient_signal")
    (hrc : state.reality_check = some rc) :
    ((rc.market_signal = "strong" ∨ rc.market_signal = "mixed") →
      ∃ v, (verdict_node memory_available llm_response state).verdict = some v ∧
        v.verdict = "watchlist" ∧ v.confidence = "low" ∧
        v.timeline = "re-evaluate in 3 months") ∧
    (rc.market_signal = "weak" →
      ∃ v, (verdict_node memory_available llm_response state).verdict = some v ∧
        v.verdict = "ignore" ∧ v.confidence = "low") := by
  constructor
  · intro hm
    have hkg : ((rc.market_signal == "strong") || (rc.market_signal == "mixed")) = true := by
      cases hm with
      | inl h => simp [h]
      | inr h => simp [h]
    simp only [verdict_node, hsig, hrc, hst, Option.getD_some]
    simp [hkg]
  · intro hm
    simp only [verdict_node, hsig, hrc, hst, Option.getD_some]
    simp [hm]

/-- **C3 witness**: insufficient signal with strong market yields watchlist. -/
theorem C3_knowledge_gap_bias_witness :
    ∃ v, (verdict_node true none
      { topic := "t",
        signal := some { status := "insufficient_signal", confidence_level := some "low" },
        reality_check := some
          { feasibility := "medium", market_signal := "strong", risk_factors := [],
            hype_score := 4, evidence_summary := "e" } }).verdict = some v ∧
      v.verdict = "watchlist" ∧ v.confidence = "low" ∧
      v.timeline = "re-evaluate in 3 months" :=
  (C3_knowledge_gap_bias true none _ _ _ rfl rfl rfl).1 (Or.inl rfl)

/-- The trajectory scan returns a hit whenever a matching decision exists in
the list (or the accumulator already holds one). -/
theorem find_recent_explore_isSome (t : String) :
    ∀ (l : List SimilarDecision) (acc : Option SimilarDecision),
      ((∃ d ∈ l, trajMatches t d = true) ∨ acc.isSome = true) →
      (find_recent_explore t l acc).isSome = true := by
  intro l
  induction l with
  | nil =>
    intro acc h
    rcases h with ⟨d, hd, _⟩ | h
    · cases hd
    · simpa [find_recent_explore] using h
  | cons d rest ih =>
    intro acc h
    by_cases hm : trajMatches t d = true
    · simp only [find_recent_explore, hm, if_true]
      cases acc with
      | none => exact ih (some d) (Or.inr rfl)
      | some r =>
        by_cases hlt : d.days_ago.getD 999 < r.days_ago.getD 999
        · simp only [hlt, if_true]
          exact ih (some d) (Or.inr rfl)
        · simp only [hlt, if_false]
          exact ih (some r) (Or.inr rfl)
    · simp only [find_recent_explore, hm, if_false]
      apply ih
      rcases h with ⟨d', hd', hmatch⟩ | hacc
      · rcases List.mem_cons.mp hd' with rfl | hd''
        · exact absurd hmatch hm
        · exact Or.inl ⟨d', hd'', hmatch⟩
      · exact Or.inr hacc

/-- **C4** — Trajectory negative gate: when the memory context holds a similar
past decision verdicted `explore` for a lexically overlapping topic, the
resolver forces `pursue` exactly when (market strong OR feasibility high) AND
hype ≤ 6, and otherwise returns `none`, leaving the decision to the
evaluative call. -/
theorem C4_trajectory_negative_gate (state : PipelineState) (mc : MemoryContext)
    (rc : RealityCheckOutput) (hrc : state.reality_check = some rc)
    (d : SimilarDecision) (hd : d ∈ mc.similar_decisions)
    (hmatch : trajMatches (pyStrip (pyLower state.topic)) d = true) :
    resolve_decision_trajectory state (some mc) =
      (if (rc.market_signal = "strong" ∨ rc.feasibility = "high") ∧ rc.hype_score ≤ 6
       then some "pursue" else none) := by
  have hne : mc.similar_decisions.isEmpty = false := by
    cases h : mc.similar_decisions with
    | nil => rw [h] at hd; cases hd
    | cons a l => rfl
  have hfind := find_recent_explore_isSome (pyStrip (pyLower state.topic))
      mc.similar_decisions none (Or.inl ⟨d, hd, hmatch⟩)
  obtain ⟨r, hr⟩ := Option.isSome_iff_exists.mp hfind
  simp only [resolve_decision_trajectory, hne, hr, hrc]
  by_cases hcond : (rc.market_signal = "strong" ∨ rc.feasibility = "high") ∧
      rc.hype_score ≤ 6
  · rw [if_pos hcond]
    have hb : ((rc.market_signal == "strong" || rc.feasibility == "high") &&
        decide (rc.hype_score ≤ 6)) = true := by
      rcases hcond with ⟨h1 | h1, h2⟩ <;> simp [h1, h2]
    simp [hb]
  · rw [if_neg hcond]
    have hb : ((rc.market_signal == "strong" || rc.feasibility == "high") &&
        decide (rc.hype_score ≤ 6)) = false := by
      by_cases h1 : rc.market_signal = "strong"
      · by_cases h2 : rc.hype_score ≤ 6
        · exact absurd ⟨Or.inl h1, h2⟩ hcond
        · simp [h2]
      · by_cases h3 : rc.feasibility = "high"
        · by_cases h2 : rc.hype_score ≤ 6
          · exact absurd ⟨Or.inr h3, h2⟩ hcond
          · simp [h2]
        · simp [h1, h3]
    simp [hb]

/-- **C4 witness**: prior explore for "rust", market strong, hype 5 forces
`pursue`. -/
theorem C4_trajectory_negative_gate_witness :
    resolve_decision_trajectory
      { topic := "rust",
        reality_check := some
          { feasibility := "medium", market_signal := "strong",
            risk_factors := [], hype_score := 5, evidence_summary := "e" } }
      (some { similar_decisions :=
        [{ topic := some "rust", verdict := some "explore", days_ago := some 10 }] }) =
      some "pursue" := by
  rw [C4_trajectory_negative_gate _ _ _ rfl
    { topic := some "rust", verdict := some "explore", days_ago := some 10 }
    (List.mem_singleton.mpr rfl) (by decide)]
  rw [if_pos ⟨Or.inl rfl, by norm_num⟩]

/-- The trajectory resolver reads only `topic` and `reality_check` from the
state. -/
theorem resolve_decision_trajectory_congr (s t : PipelineState)
    (mc : Option MemoryContext) (htopic : s.topic = t.topic)
    (hrc : s.reality_check = t.reality_check) :
    resolve_decision_trajectory s mc = resolve_decision_trajectory t mc := by
  unfold resolve_decision_trajectory
  rw [htopic, hrc]

/-- **C7 counterexample** — the claim fails on the trajectory-forced `pursue`
path: with a prior `explore` for an overlapping topic, feasibility `high`,
market `weak` and hype 5, the gate forces `pursue` with hard-coded confidence
`high` and returns before the dampening step, although
`evidence_strength = 0.2 < 0.5`; the claim demands final confidence `medium`. -/
theorem C7_confidence_dampening_counterexample :
    (let st : PipelineState :=
      { topic := "rust",
        signal := some { status := "ok", confidence_level := some "low" },
        reality_check := some
          { feasibility := "high", market_signal := "weak", risk_factors := ["r"],
            hype_score := 5, evidence_summary := "e" },
        memory_context := some { similar_decisions :=
          [{ topic := some "rust", verdict := some "explore", days_ago := some 10 }] } }
     evidence_strength_from_market "weak" 5 < 1/2 ∧
     (verdict_node true none st).verdict.map VerdictOutput.confidence = some "high") := by
  constructor
  · norm_num [evidence_strength_from_market]
  · rfl

/-- **C7 (amended)** — Confidence dampening on the evaluative-call path: when
the verdict stage reaches the LLM call (framed signal present and not
insufficient, signal confidence not `high` so the contract gate cannot fire,
no pre-existing violation, trajectory resolver yields no forced verdict) and
`evidence_strength < 0.5` while the validated LLM result claims confidence
`high`, the final verdict confidence is downgraded to `medium`.  (On the
trajectory-forced `pursue` path the code returns confidence `high` without
dampening — see the counterexample.) -/
theorem C7_confidence_dampening_amended (memory_available : Bool)
    (llm : VerdictResultDict) (state : PipelineState)
    (sig : SignalFramingOutput) (rc : RealityCheckOutput)
    (hsig : state.signal = some sig)
    (hst : sig.status ≠ "insufficient_signal")
    (hconf : sig.confidence_level ≠ some "high")
    (hcv : state.contract_violation = false)
    (hrc : state.reality_check = some rc)
    (hev : evidence_strength_from_market rc.market_signal rc.hype_score < 1/2)
    (hres : resolve_decision_trajectory state
      (if memory_available then state.memory_context else none) = none)
    (hhigh : (validate_and_fix_verdict_result llm llm.verdict).confidence = "high") :
    ∃ v, (verdict_node memory_available (some llm) state).verdict = some v ∧
      v.confidence = "medium" := by
  have hstb : (sig.status == "insufficient_signal") = false := by
    simp [hst]
  have hsc : ((match sig.confidence_level with
      | some c => if c = "" then "low" else c
      | none => "low") == "high") = false := by
    cases hcl : sig.confidence_level with
    | none => simp
    | some c =>
      by_cases hce : c = ""
      · simp [hce]
      · simp only [if_neg hce, beq_eq_false_iff_ne, ne_eq]
        intro hch
        exact hconf (by rw [hcl, hch])
  have hkg : ((sig.status == "insufficient_signal") &&
      (rc.market_signal == "strong" || rc.market_signal == "mixed")) = false := by
    simp [hstb]
  have hres2 : resolve_decision_trajectory
      { topic := state.topic, signal := some sig, reality_check := some rc,
        verdict := state.verdict, memory_context := state.memory_context,
        memory_hints := state.memory_hints,
        memory_relevance_score := state.memory_relevance_score,
        signal_evidence_alignment := state.signal_evidence_alignment,
        evidence_verdict_alignment := state.evidence_verdict_alignment,
        chain_coherence_score := state.chain_coherence_score,
        contract_violation := false, violations := state.violations,
        knowledge_gap := false }
      (if memory_available then state.memory_context else none) = none :=
    Eq.trans (resolve_decision_trajectory_congr _ state _ rfl hrc.symm) hres
  have hev2 : evidence_strength_from_market rc.market_signal rc.hype_score < (2:ℚ)⁻¹ := by
    rw [← one_div]; exact hev
  simp only [verdict_node, hsig, Option.getD_some, hrc]
  simp [hstb, hsc, hkg, check_contract, hcv, hres2, hev2, hhigh]
  rcases hmrs : state.memory_relevance_score with _ | m <;> simp [hmrs] <;>
    split_ifs <;> exact ⟨_, rfl, rfl⟩

/-- **C7 witness**: a weak-market, low-hype state whose LLM result claims
high confidence ends at confidence `medium`. -/
theorem C7_confidence_dampening_amended_witness :
    ∃ v, (verdict_node false
      (some { verdict := some "pursue", reasoning := some "r",
              action_items := some ["a1", "a2"], timeline := some "now",
              confidence := some "high" })
      { topic := "t",
        signal := some { status := "ok", confidence_level := some "low" },
        reality_check := some
          { feasibility := "low", market_signal := "weak", risk_factors := [],
            hype_score := 2, evidence_summary := "e" } }).verdict = some v ∧
      v.confidence = "medium" :=
  C7_confidence_dampening_amended false _ _ _ _ rfl (by decide) (by decide) rfl rfl
    (by norm_num [evidence_strength_from_market]) rfl rfl

/-- **C8 (amended)** — Bounded memory context, with the code's actual bound on
decisions: every `MemoryContext` returned by `get_memory_context` has at most
5 user traits, at most 3 topic patterns, and at most 5 similar decisions
(the decision read is issued with `limit=5`, not 3). -/
theorem C8_bounded_memory_context_amended (embedder : Bool) (now : Nat)
    (store : Store) (user_id topic current_query : String) :
    (get_memory_context embedder now store user_id topic
        current_query).user_traits.length ≤ 5 ∧
    (get_memory_context embedder now store user_id topic
        current_query).topic_patterns.length ≤ 3 ∧
    (get_memory_context embedder now store user_id topic
        current_query).similar_decisions.length ≤ 5 := by
  refine ⟨?_, ?_, ?_⟩
  · simp only [get_memory_context, _get_user_traits, List.length_map,
      List.length_take]
    omega
  · simp only [get_memory_context, List.length_take]
    omega
  · simp only [get_memory_context, _get_recent_decisions, List.length_map,
      List.length_take]
    omega

/-- **C8 counterexample** — the claim as stated (at most 3 similar decisions)
fails: with four live decisions for a user, `get_memory_context` returns all
four (`_get_recent_decisions` is called with `limit=5`). -/
theorem C8_bounded_memory_context_counterexample :
    ¬ ((get_memory_context false 0
      { decisions :=
          [("k1", { user_id := "u", topic := "t1", verdict := "explore",
                    reasoning := "r", confidence := 1/2, created_at := 1,
                    ttl_days := 7, categories := [], market_signal := "mixed",
                    hype_score := 3 }),
           ("k2", { user_id := "u", topic := "t2", verdict := "explore",
                    reasoning := "r", confidence := 1/2, created_at := 2,
                    ttl_days := 7, categories := [], market_signal := "mixed",
                    hype_score := 3 }),
           ("k3", { user_id := "u", topic := "t3", verdict := "explore",
                    reasoning := "r", confidence := 1/2, created_at := 3,
                    ttl_days := 7, categories := [], market_signal := "mixed",
                    hype_score := 3 }),
           ("k4", { user_id := "u", topic := "t4", verdict := "explore",
                    reasoning := "r", confidence := 1/2, created_at := 4,
                    ttl_days := 7, categories := [], market_signal := "mixed",
                    hype_score := 3 })] }
      "u" "t" "").similar_decisions.length ≤ 3) := by
  show ¬ ((4 : Nat) ≤ 3)
  · omega

/-- **C9** — the decision-signature check-then-write is NOT atomic: the code
issues a plain `GET` followed later by a separate `SETEX` (no set-if-absent,
no transaction).  Interleaving two concurrent `_store_decision` calls with
identical `(topic, reasoning)` so that both `GET`s run before either write
creates two live decision records for one signature, while the sequential
schedule creates exactly one — refuting "at most one new decision record is
ever created". -/
theorem C9_sig_check_write_not_atomic :
    (let ctxA : MemoryWriteContext :=
      { user_id := "a", topic := "t", verdict := "explore", confidence := "medium",
        reasoning := "r", user_context := "", market_signal := "mixed",
        hype_score := 3, risk_factors := [], signal_status := "ok",
        contract_violation := false }
     let ctxB : MemoryWriteContext :=
      { user_id := "b", topic := "t", verdict := "explore", confidence := "medium",
        reasoning := "r", user_context := "", market_signal := "mixed",
        hype_score := 3, risk_factors := [], signal_status := "ok",
        contract_violation := false }
     let init : DecThread × DecThread × Store :=
      (⟨ctxA, 1, .checkSig, none⟩, ⟨ctxB, 2, .checkSig, none⟩, {})
     (runSchedule [true, false, true, true, false, false] init).2.2.decisions.length = 2 ∧
     (runSchedule [true, true, true, false, false, false] init).2.2.decisions.length = 1) := by
  exact ⟨rfl, rfl⟩

/-! ## Topic-normalization idempotence (C10) -/

/-- `Char.toLower` is idempotent (its image avoids the upper-case range). -/
theorem toLower_toLower (c : Char) : c.toLower.toLower = c.toLower := by
  unfold Char.toLower
  by_cases h : c.toNat ≥ 65 ∧ c.toNat ≤ 90
  · rw [if_pos h]
    have hv : (c.toNat + 32).isValidChar := Or.inl (by omega)
    have hval : (Char.ofNat (c.toNat + 32)).toNat = c.toNat + 32 := by
      simp only [Char.ofNat]
      rw [dif_pos hv]
      rfl
    rw [if_neg (by rw [hval]; omega)]
  · rw [if_neg h, if_neg h]

/-- Words produced by the split worker are nonempty and whitespace-free
(provided the accumulator holds no whitespace). -/
theorem splitWordsAux_good : ∀ (l acc : List Char),
    (∀ c ∈ acc, wsp c = false) →
    ∀ w ∈ splitWordsAux l acc, w ≠ [] ∧ ∀ c ∈ w, wsp c = false := by
  intro l
  induction l with
  | nil =>
    intro acc hacc w hw
    simp only [splitWordsAux] at hw
    split at hw
    · cases hw
    · rename_i he
      rw [List.mem_singleton] at hw
      subst hw
      refine ⟨?_, fun c hc => hacc c (List.mem_reverse.mp hc)⟩
      simp only [List.isEmpty_iff] at he
      simpa [List.reverse_eq_nil_iff] using he
  | cons c cs ih =>
    intro acc hacc w hw
    simp only [splitWordsAux] at hw
    split at hw
    · split at hw
      · exact ih [] (by simp) w hw
      · rename_i he
        rcases List.mem_cons.mp hw with rfl | hw'
        · refine ⟨?_, fun d hd => hacc d (List.mem_reverse.mp hd)⟩
          simp only [List.isEmpty_iff] at he
          simpa [List.reverse_eq_nil_iff] using he
        · exact ih [] (by simp) w hw'
    · rename_i hcw
      refine ih (c :: acc) ?_ w hw
      intro d hd
      rcases List.mem_cons.mp hd with rfl | hd'
      · simpa using hcw
      · exact hacc d hd'

/-- Characters of split words come from the input or the accumulator. -/
theorem splitWordsAux_subset : ∀ (l acc w : List Char) (c : Char),
    w ∈ splitWordsAux l acc → c ∈ w → c ∈ l ∨ c ∈ acc := by
  intro l
  induction l with
  | nil =>
    intro acc w c hw hc
    simp only [splitWordsAux] at hw
    split at hw
    · cases hw
    · rw [List.mem_singleton] at hw
      subst hw
      exact Or.inr (List.mem_reverse.mp hc)
  | cons a cs ih =>
    intro acc w c hw hc
    simp only [splitWordsAux] at hw
    split at hw
    · split at hw
      · rcases ih [] w c hw hc with h | h
        · exact Or.inl (List.mem_cons_of_mem _ h)
        · cases h
      · rcases List.mem_cons.mp hw with rfl | hw'
        · exact Or.inr (List.mem_reverse.mp hc)
        · rcases ih [] w c hw' hc with h | h
          · exact Or.inl (List.mem_cons_of_mem _ h)
          · cases h
    · rcases ih (a :: acc) w c hw hc with h | h
      · exact Or.inl (List.mem_cons_of_mem _ h)
      · rcases List.mem_cons.mp h with rfl | h'
        · exact Or.inl (List.mem_cons_self _ _)
        · exact Or.inr h'

/-- A character of a space-join is the separator or lies in some word. -/
theorem mem_interSpace : ∀ (ws : List (List Char)) (c : Char),
    c ∈ interSpace ws → c = ' ' ∨ ∃ w ∈ ws, c ∈ w := by
  intro ws
  induction ws with
  | nil =>
    intro c hc
    cases hc
  | cons w rest ih =>
    intro c hc
    cases rest with
    | nil => exact Or.inr ⟨w, List.mem_singleton.mpr rfl, hc⟩
    | cons v rest' =>
      rw [show interSpace (w :: v :: rest') = w ++ ' ' :: interSpace (v :: rest') from rfl,
        List.mem_append] at hc
      rcases hc with h | h
      · exact Or.inr ⟨w, List.mem_cons_self _ _, h⟩
      · rcases List.mem_cons.mp h with rfl | h'
        · exact Or.inl rfl
        · rcases ih c h' with h'' | ⟨u, hu, hcu⟩
          · exact Or.inl h''
          · exact Or.inr ⟨u, List.mem_cons_of_mem _ hu, hcu⟩

/-- The split worker walks through a whitespace-free prefix, accumulating it. -/
theorem splitWordsAux_append_nonws : ∀ (w l acc : List Char),
    (∀ c ∈ w, wsp c = false) →
    splitWordsAux (w ++ l) acc = splitWordsAux l (w.reverse ++ acc) := by
  intro w
  induction w with
  | nil => intro l acc _; simp
  | cons c w' ih =>
    intro l acc hw
    have hc : wsp c = false := hw c (List.mem_cons_self _ _)
    simp only [List.cons_append, splitWordsAux]
    rw [if_neg (by simp [hc])]
    show splitWordsAux (w' ++ l) (c :: acc) = splitWordsAux l ((c :: w').reverse ++ acc)
    rw [ih l (c :: acc) (fun d hd => hw d (List.mem_cons_of_mem _ hd))]
    simp

/-- Splitting a space-join of nonempty whitespace-free words recovers them. -/
theorem pySplitList_interSpace : ∀ (ws : List (List Char)),
    (∀ w ∈ ws, w ≠ [] ∧ ∀ c ∈ w, wsp c = false) →
    pySplitList (interSpace ws) = ws := by
  intro ws
  induction ws with
  | nil => intro _; rfl
  | cons w rest ih =>
    intro hgood
    obtain ⟨hne, hnw⟩ := hgood w (List.mem_cons_self _ _)
    cases rest with
    | nil =>
      show splitWordsAux w [] = [w]
      have h := splitWordsAux_append_nonws w [] [] hnw
      rw [List.append_nil] at h
      rw [h]
      simp only [splitWordsAux, List.append_nil]
      rw [if_neg (by simpa [List.isEmpty_iff, List.reverse_eq_nil_iff] using hne)]
      rw [List.reverse_reverse]
    | cons v rest' =>
      show splitWordsAux (w ++ ' ' :: interSpace (v :: rest')) [] = w :: v :: rest'
      rw [splitWordsAux_append_nonws w _ [] hnw, List.append_nil]
      simp only [splitWordsAux]
      have hsp : wsp ' ' = true := rfl
      rw [if_pos hsp]
      rw [if_neg (by simpa [List.isEmpty_iff, List.reverse_eq_nil_iff] using hne)]
      rw [List.reverse_reverse]
      congr 1
      exact ih (fun u hu => hgood u (List.mem_cons_of_mem _ hu))

/-- A space-join of good words has no leading whitespace. -/
theorem dropWhile_interSpace (ws : List (List Char))
    (h : ∀ w ∈ ws, w ≠ [] ∧ ∀ c ∈ w, wsp c = false) :
    (interSpace ws).dropWhile wsp = interSpace ws := by
  cases ws with
  | nil => rfl
  | cons w rest =>
    obtain ⟨hne, hnw⟩ := h w (List.mem_cons_self _ _)
    obtain ⟨c, w', rfl⟩ := List.exists_cons_of_ne_nil hne
    have hc : wsp c = false := hnw c (List.mem_cons_self _ _)
    cases rest with
    | nil =>
      show (c :: w').dropWhile wsp = c :: w'
      simp [List.dropWhile_cons, hc]
    | cons v rest' =>
      show ((c :: w') ++ ' ' :: interSpace (v :: rest')).dropWhile wsp = _
      simp only [List.cons_append, List.dropWhile_cons, hc]
      rfl

/-- Space-join of a snoc. -/
theorem interSpace_append_single (ys : List (List Char)) (z : List Char)
    (h : ys ≠ []) :
    interSpace (ys ++ [z]) = interSpace ys ++ ' ' :: z := by
  induction ys with
  | nil => cases h rfl
  | cons w rest ih =>
    cases rest with
    | nil => rfl
    | cons v rest' =>
      show w ++ ' ' :: interSpace ((v :: rest') ++ [z]) =
        (w ++ ' ' :: interSpace (v :: rest')) ++ ' ' :: z
      rw [ih (by simp)]
      simp

/-- Reversing a space-join reverses the words and their order. -/
theorem interSpace_reverse (ws : List (List Char)) :
    (interSpace ws).reverse = interSpace ((ws.map List.reverse).reverse) := by
  induction ws with
  | nil => rfl
  | cons w rest ih =>
    cases rest with
    | nil => rfl
    | cons v rest' =>
      show (w ++ ' ' :: interSpace (v :: rest')).reverse = _
      rw [List.reverse_append, List.reverse_cons]
      rw [ih]
      rw [show ((w :: v :: rest').map List.reverse).reverse =
        ((v :: rest').map List.reverse).reverse ++ [w.reverse] by simp]
      rw [interSpace_append_single _ _ (by simp)]
      simp

/-- Good words stay good under reversal. -/
theorem goodWords_reverse_map (ws : List (List Char))
    (h : ∀ w ∈ ws, w ≠ [] ∧ ∀ c ∈ w, wsp c = false) :
    ∀ w ∈ (ws.map List.reverse).reverse, w ≠ [] ∧ ∀ c ∈ w, wsp c = false := by
  intro w hw
  rw [List.mem_reverse, List.mem_map] at hw
  obtain ⟨u, hu, rfl⟩ := hw
  obtain ⟨hne, hnw⟩ := h u hu
  exact ⟨by simpa [List.reverse_eq_nil_iff] using hne,
    fun c hc => hnw c (List.mem_reverse.mp hc)⟩

/-- Stripping a space-join of good words is the identity. -/
theorem stripChars_interSpace (ws : List (List Char))
    (h : ∀ w ∈ ws, w ≠ [] ∧ ∀ c ∈ w, wsp c = false) :
    stripChars (interSpace ws) = interSpace ws := by
  unfold stripChars
  rw [dropWhile_interSpace ws h, interSpace_reverse,
    dropWhile_interSpace _ (goodWords_reverse_map ws h), ← interSpace_reverse,
    List.reverse_reverse]

/-- The character-level normalizer is idempotent, and stripping its output
is the identity. -/
theorem normalizeTopicChars_idem (l : List Char) :
    normalizeTopicChars (normalizeTopicChars l) = normalizeTopicChars l ∧
    stripChars (normalizeTopicChars l) = normalizeTopicChars l := by
  have hout : normalizeTopicChars l =
      interSpace (pySplitList (((l.map Char.toLower).filter
        (fun c => !(c.isDigit || c == '.'))).filter
        (fun c => isWordChar c || wsp c))) := rfl
  set cleaned := ((l.map Char.toLower).filter
      (fun c => !(c.isDigit || c == '.'))).filter
      (fun c => isWordChar c || wsp c) with hcleaned
  have hgood : ∀ w ∈ pySplitList cleaned, w ≠ [] ∧ ∀ c ∈ w, wsp c = false :=
    fun w hw => splitWordsAux_good cleaned [] (by simp) w hw
  have hstrip : stripChars (normalizeTopicChars l) = normalizeTopicChars l := by
    rw [hout]
    exact stripChars_interSpace _ hgood
  refine ⟨?_, hstrip⟩
  have hmem : ∀ c ∈ normalizeTopicChars l, c = ' ' ∨ c ∈ cleaned := by
    intro c hc
    rw [hout] at hc
    rcases mem_interSpace _ c hc with h | ⟨w, hw, hcw⟩
    · exact Or.inl h
    · rcases splitWordsAux_subset cleaned [] w c hw hcw with h | h
      · exact Or.inr h
      · cases h
  have hcl : ∀ c ∈ cleaned, Char.toLower c = c ∧
      (!(c.isDigit || c == '.')) = true ∧ (isWordChar c || wsp c) = true := by
    intro c hc
    rw [hcleaned] at hc
    have h2 := List.mem_filter.mp hc
    have h1 := List.mem_filter.mp h2.1
    obtain ⟨c0, _, rfl⟩ := List.mem_map.mp h1.1
    exact ⟨toLower_toLower c0, h1.2, h2.2⟩
  have hfix : ∀ c ∈ normalizeTopicChars l, Char.toLower c = c ∧
      (!(c.isDigit || c == '.')) = true ∧ (isWordChar c || wsp c) = true := by
    intro c hc
    rcases hmem c hc with rfl | hc'
    · exact ⟨by decide, by decide, by decide⟩
    · exact hcl c hc'
  have hmap : (normalizeTopicChars l).map Char.toLower = normalizeTopicChars l := by
    conv_rhs => rw [← List.map_id (normalizeTopicChars l)]
    exact List.map_congr_left (fun c hc => (hfix c hc).1)
  have hf1 : (normalizeTopicChars l).filter (fun c => !(c.isDigit || c == '.')) =
      normalizeTopicChars l :=
    List.filter_eq_self.mpr (fun c hc => (hfix c hc).2.1)
  have hf2 : (normalizeTopicChars l).filter (fun c => isWordChar c || wsp c) =
      normalizeTopicChars l :=
    List.filter_eq_self.mpr (fun c hc => (hfix c hc).2.2)
  calc normalizeTopicChars (normalizeTopicChars l)
      = interSpace (pySplitList ((((normalizeTopicChars l).map Char.toLower).filter
          (fun c => !(c.isDigit || c == '.'))).filter
          (fun c => isWordChar c || wsp c))) := rfl
    _ = interSpace (pySplitList (normalizeTopicChars l)) := by rw [hmap, hf1, hf2]
    _ = interSpace (pySplitList (interSpace (pySplitList cleaned))) := by rw [hout]
    _ = interSpace (pySplitList cleaned) := by
          rw [pySplitList_interSpace _ hgood]
    _ = normalizeTopicChars l := hout.symm

/-- **C10** — Topic normalization is idempotent: for every input string,
`_normalize_topic (_normalize_topic t) = _normalize_topic t`, so a normalized
topic used as a pattern key is a fixed point and re-normalizing a stored key
addresses the same record. -/
theorem C10_normalize_topic_idempotent (t : String) :
    _normalize_topic (_normalize_topic t) = _normalize_topic t := by
  have h := normalizeTopicChars_idem t.data
  show pyStrip ⟨normalizeTopicChars (_normalize_topic t).data⟩ = _normalize_topic t
  have hdata : (_normalize_topic t).data = normalizeTopicChars t.data := by
    show (pyStrip ⟨normalizeTopicChars t.data⟩).data = normalizeTopicChars t.data
    show stripChars (normalizeTopicChars t.data) = normalizeTopicChars t.data
    exact h.2
  rw [hdata]
  show (⟨stripChars (normalizeTopicChars (normalizeTopicChars t.data))⟩ : String) =
    _normalize_topic t
  rw [h.1]
  rfl
